import Mathlib

/-!
Shallow embedding of the k3s-coreos ISO-creation pipeline
(src/src/models.py and src/src/controller.py).

Filesystem state is a list of existing paths, external effects are driven
by an explicit environment (command outcomes, confirmation answer,
mkstemp-produced paths), and Python exceptions are modelled with
Except.  Each function mirrors the corresponding Python method.
-/

namespace K3sCoreos

/-- Configuration model mirroring the dataclass ISOCreationConfig of
src/src/models.py after post-init resolution: every field is a plain
string (the Python None is represented by the empty string, matching
the truthiness tests the code performs). -/
structure ISOCreationConfig where
  install_disk : String
  output_iso : String
  ignition_file : String
  base_iso : String
  ssh_key : String
  hostname : String
  username : String
  cache_dir : String
  temp_dir : String
deriving DecidableEq, Repr

/-- Embedding of ISOCreationConfig.validate (models.py lines 91-110):
five independent emptiness checks, in source order, each appending one
message. -/
def validate (c : ISOCreationConfig) : List String :=
  (if c.install_disk = "" then ["Install disk must be specified"] else []) ++
  (if c.output_iso = "" then ["Output ISO filename must be specified"] else []) ++
  (if c.ssh_key = "" then ["SSH key must be specified"] else []) ++
  (if c.hostname = "" then ["Hostname must be specified"] else []) ++
  (if c.username = "" then ["Username must be specified"] else [])

/-- Embedding of ISOCreationConfig.is_valid (models.py lines 112-114). -/
def is_valid (c : ISOCreationConfig) : Bool :=
  (validate c).length = 0

/-- Fuel-indexed scanner implementing the semantics of Python
str.replace for a non-empty pattern: scan left to right, replace each
non-overlapping occurrence of the pattern, continue after the replaced
segment, never rescan the replacement text.  Fuel equal to the length
of the scanned list is always sufficient. -/
def replaceAux (p r : List Char) : Nat → List Char → List Char
  | _, [] => []
  | 0, s => s
  | Nat.succ fuel, c :: rest =>
    if p.isPrefixOf (c :: rest) then
      r ++ replaceAux p r fuel (List.drop p.length (c :: rest))
    else
      c :: replaceAux p r fuel rest

/-- Embedding of the Python string method s.replace(pat, r). -/
def pyReplace (s pat r : String) : String :=
  String.mk (replaceAux pat.toList r.toList s.toList.length s.toList)

/-- Embedding of the three literal substitutions performed by
ConsoleController.process_butane_template (controller.py lines 82-84),
in source order. -/
def process_template_vars (template ssh_key hostname username : String) : String :=
  pyReplace (pyReplace (pyReplace template "{{SSH_KEY}}" ssh_key)
    "{{HOSTNAME}}" hostname) "{{USERNAME}}" username

/-- Number of empty fields among the four user-required fields
install target, SSH key, hostname, username (the N of the claim about
validation completeness). -/
def missing_required_count (c : ISOCreationConfig) : Nat :=
  (if c.install_disk = "" then 1 else 0) +
  (if c.ssh_key = "" then 1 else 0) +
  (if c.hostname = "" then 1 else 0) +
  (if c.username = "" then 1 else 0)

/-- Python exceptions relevant to the pipeline. -/
inductive PyErr where
  | calledProcessError (returncode : Nat) (stdout stderr : String)
  | keyboardInterrupt
  | valueError (msg : String)
  | osError (msg : String)
deriving DecidableEq, Repr

/-- Observable side effects of a run, in order of occurrence:
os.remove calls, external command launches, view.show_error calls and
the single confirmation prompt. -/
inductive Ev where
  | removed (path : String)
  | ran (cmd : List String)
  | errorShown (msg : String)
  | confirmAsked
deriving DecidableEq, Repr

/-- Result object of a successful subprocess.run call. -/
structure CompletedProcess where
  stdout : String
  stderr : String
deriving DecidableEq, Repr

/-- Mutable state threaded through the embedded controller: the set of
paths existing on disk, the controller's self.config, and the event
trace. -/
structure St where
  fs : List String
  config : ISOCreationConfig
  events : List Ev
deriving DecidableEq, Repr

/-- File creation in the filesystem model. -/
def fsAdd (p : String) (fs : List String) : List String := p :: fs

/-- File deletion in the filesystem model: removes every occurrence
of the path. -/
def fsRemove (p : String) : List String → List String
  | [] => []
  | q :: rest => if q = p then fsRemove p rest else q :: fsRemove p rest

/-- Outcome the environment assigns to one external command
invocation: normal exit (captured streams), non-zero exit (Python
raises CalledProcessError under check=True), or a user interruption
delivered while the command is awaited. -/
inductive CmdOutcome where
  | ok (stdout stderr : String)
  | fail (returncode : Nat) (stdout stderr : String)
  | interrupt
deriving DecidableEq, Repr

/-- Environment faced by one _temp_file call: the result of
tempfile.mkstemp, whether writing the initial content succeeds, and
whether os.remove succeeds if attempted at scope exit. -/
structure TempFileEnv where
  mkstempResult : Except PyErr String
  writeOk : Bool
  removeOk : Bool

/-- Finally-block of ConsoleController._temp_file (controller.py lines
40-42): if the path still exists, call os.remove on it; a raising
os.remove replaces the in-flight outcome, exactly as a Python finally
block does. -/
def temp_file_exit {α : Type} (removeOk : Bool) (path : String) :
    Except PyErr α × St → Except PyErr α × St
  | (res, st) =>
    if path ∈ st.fs then
      let st1 : St := { st with events := st.events ++ [Ev.removed path] }
      if removeOk then (res, { st1 with fs := fsRemove path st1.fs })
      else (Except.error (PyErr.osError "remove failed"), st1)
    else (res, st)

/-- Embedding of ConsoleController._temp_file (controller.py lines
25-42): tempfile.mkstemp creates the file (a failing mkstemp
propagates before anything exists), the initial content is written
inside the try block (so a failing write reaches the finally block
with the file already created), the body runs with the path, and the
finally block removes the file if it still exists. -/
def temp_file {α : Type} (tfe : TempFileEnv) (content : String)
    (body : String → St → Except PyErr α × St) (st : St) : Except PyErr α × St :=
  match tfe.mkstempResult with
  | Except.error e => (Except.error e, st)
  | Except.ok path =>
    let st1 : St := { st with fs := fsAdd path st.fs }
    temp_file_exit tfe.removeOk path
      (if content ≠ "" ∧ tfe.writeOk = false then
        (Except.error (PyErr.osError "write failed"), st1)
      else body path st1)

/-- Concrete configuration used by witnesses and counterexamples. -/
def cfg0 : ISOCreationConfig :=
  { install_disk := "/dev/sda"
    output_iso := "server.iso"
    ignition_file := "/tmp/server.ign"
    base_iso := "/cache/fedora-coreos.iso"
    ssh_key := "ssh-ed25519 AAAA x@y"
    hostname := "k3s"
    username := "core"
    cache_dir := "/cache"
    temp_dir := "/tmp" }

/-- Concrete state with a given set of existing paths. -/
def stOn (fs : List String) : St :=
  { fs := fs, config := cfg0, events := [] }

/-- Environment faced by one ConsoleController.create_iso run: the
configuration the view collects, the confirmation answer, the template
resource (its presence and text), the paths tempfile.mkstemp produces
for the two scoped files, and the outcome of each of the four external
commands. -/
structure PipelineEnv where
  initialConfig : ISOCreationConfig
  confirm : Bool
  templateExists : Bool
  templateContent : String
  butanePath : String
  ignitionPath : String
  convert : CmdOutcome
  validateCmd : CmdOutcome
  fetch : CmdOutcome
  customize : CmdOutcome

/-- Python try-propagation sequencing: an error result short-circuits,
a normal result feeds value and state to the continuation. -/
def andThen {A B : Type} (m : Except PyErr A × St)
    (f : A → St → Except PyErr B × St) : Except PyErr B × St :=
  match m with
  | (Except.error e, st) => (Except.error e, st)
  | (Except.ok v, st) => f v st

/-- Error message built by ConsoleController.run_command (controller.py
lines 52-57): return code always, each stream only when non-empty. -/
def cmdErrorMsg (cmd : List String) (rc : Nat) (out err : String) : String :=
  "Command failed: " ++ String.intercalate " " cmd ++ "\nReturn code: " ++ toString rc
    ++ (if out ≠ "" then "\nSTDOUT: " ++ out else "")
    ++ (if err ≠ "" then "\nSTDERR: " ++ err else "")

/-- Embedding of ConsoleController.run_command (controller.py lines
44-60) composed with BaseView.execute_with_progress (views.py lines
211-228, subprocess.run with check=True): the command is launched
once; a non-zero exit raises CalledProcessError carrying the exit code
and both captured streams, which run_command reports via show_error
and re-raises; an interruption propagates uncaught. -/
def run_command (outcome : CmdOutcome) (cmd : List String) (st : St) :
    Except PyErr CompletedProcess × St :=
  let st1 : St := { st with events := st.events ++ [Ev.ran cmd] }
  match outcome with
  | CmdOutcome.ok out err => (Except.ok { stdout := out, stderr := err }, st1)
  | CmdOutcome.fail rc out err =>
    (Except.error (PyErr.calledProcessError rc out err),
     { st1 with events := st1.events ++ [Ev.errorShown (cmdErrorMsg cmd rc out err)] })
  | CmdOutcome.interrupt => (Except.error PyErr.keyboardInterrupt, st1)

/-- Argument vector of the fetch step. -/
def download_cmd : List String :=
  ["coreos-installer", "download", "-f", "iso", "--decompress"]

/-- Embedding of ConsoleController.download_base_iso (controller.py
lines 104-121): skip when the base image already exists, otherwise run
the fetch command (on success the external fetcher creates the file
named by its stripped stdout) and rename that file to the configured
base-image path when it exists. -/
def download_base_iso (outcome : CmdOutcome) (st : St) : Except PyErr Unit × St :=
  if st.config.base_iso ∈ st.fs then (Except.ok (), st)
  else
    andThen (run_command outcome download_cmd st) (fun result st1 =>
      let downloaded := result.stdout.trim
      let st2 : St :=
        if downloaded ≠ "" then { st1 with fs := fsAdd downloaded st1.fs } else st1
      if downloaded ≠ "" ∧ downloaded ∈ st2.fs then
        (Except.ok (),
         { st2 with fs := fsAdd st2.config.base_iso (fsRemove downloaded st2.fs) })
      else (Except.ok (), st2))

/-- Argument vector of the customize step, built from the
configuration (controller.py lines 145-156). -/
def customize_cmd (c : ISOCreationConfig) : List String :=
  ["coreos-installer", "iso", "customize", "--dest-ignition", c.ignition_file,
   "--dest-device", c.install_disk, "-o", c.output_iso, c.base_iso]

/-- Overwrite step of ConsoleController.customize_iso (controller.py
lines 137-140): if the output path exists, os.remove it. -/
def remove_existing_output (st : St) : St :=
  if st.config.output_iso ∈ st.fs then
    { st with fs := fsRemove st.config.output_iso st.fs
              events := st.events ++ [Ev.removed st.config.output_iso] }
  else st

/-- Embedding of ConsoleController.customize_iso (controller.py lines
123-160): precondition check on the four required paths, removal of a
pre-existing output file, a second (redundant) path check, then the
customize command, which on success produces the output image. -/
def customize_iso (outcome : CmdOutcome) (st : St) : Except PyErr Unit × St :=
  if st.config.ignition_file = "" ∨ st.config.output_iso = "" ∨
      st.config.install_disk = "" ∨ st.config.base_iso = "" then
    (Except.error (PyErr.valueError "Missing required configuration for ISO customization"),
     st)
  else
    let st1 : St := remove_existing_output st
    if st1.config.ignition_file = "" ∨ st1.config.output_iso = "" then
      (Except.error (PyErr.valueError "Required file paths are not configured"), st1)
    else
      andThen (run_command outcome (customize_cmd st1.config) st1) (fun _ st2 =>
        (Except.ok (), { st2 with fs := fsAdd st2.config.output_iso st2.fs }))

/-- Embedding of ConsoleController.process_butane_template
(controller.py lines 62-88): fail when the template resource is
absent, otherwise render it with the three configuration values and
open the step-scoped temp file populated with the rendered text. -/
def process_butane_template {α : Type} (env : PipelineEnv)
    (body : String → St → Except PyErr α × St) (st : St) : Except PyErr α × St :=
  if env.templateExists = false then
    (Except.error (PyErr.valueError "Template file not found"), st)
  else
    temp_file
      { mkstempResult := Except.ok env.butanePath, writeOk := true, removeOk := true }
      (process_template_vars env.templateContent st.config.ssh_key
        st.config.hostname st.config.username)
      body st

/-- Embedding of ConsoleController._create_ignition_file
(controller.py lines 90-101): open the pipeline-lifetime temp file,
store its path into config.ignition_file for the duration of the body
and restore the previous value in a finally block. -/
def create_ignition_file {α : Type} (ignPath : String)
    (body : String → St → Except PyErr α × St) (st : St) : Except PyErr α × St :=
  temp_file { mkstempResult := Except.ok ignPath, writeOk := true, removeOk := true } ""
    (fun ignition_path stA =>
      let old := stA.config.ignition_file
      let stB : St := { stA with config := { stA.config with ignition_file := ignition_path } }
      let r := body ignition_path stB
      (r.1, { r.2 with config := { r.2.config with ignition_file := old } }))
    st

/-- Argument vector of the convert step (controller.py lines 192-199). -/
def convert_cmd (temp_butane ignition_file : String) : List String :=
  ["butane", "--pretty", "--strict", temp_butane, "--output", ignition_file]

/-- Argument vector of the activation-validation step (controller.py
line 203). -/
def validate_cmd_argv (ignition_file : String) : List String :=
  ["ignition-validate", ignition_file]

/-- Step 1 of create_iso (controller.py lines 189-207): inside the
template scope, run the convert command and then the validation
command; the template scope closes after both regardless of outcome. -/
def step1_inner (env : PipelineEnv) (ignition_file temp_butane : String) (st : St) :
    Except PyErr Unit × St :=
  andThen (run_command env.convert (convert_cmd temp_butane ignition_file) st) (fun _ stB =>
    andThen (run_command env.validateCmd (validate_cmd_argv ignition_file) stB) (fun _ stC =>
      (Except.ok (), stC)))

/-- Step 1 of create_iso: open the rendered-template scope around the
two commands of step1_inner. -/
def step1 (env : PipelineEnv) (ignition_file : String) (st : St) :
    Except PyErr Unit × St :=
  process_butane_template env (step1_inner env ignition_file) st

/-- Step 3 wrapper of create_iso (controller.py lines 212-218):
temporarily point config.ignition_file at the scoped ignition path
around customize_iso, restoring it in a finally block. -/
def customize_step (outcome : CmdOutcome) (ignition_file : String) (st : St) :
    Except PyErr Unit × St :=
  let old := st.config.ignition_file
  let st1 : St := { st with config := { st.config with ignition_file := ignition_file } }
  let r := customize_iso outcome st1
  (r.1, { r.2 with config := { r.2.config with ignition_file := old } })

/-- Body of the pipeline-lifetime ignition scope in create_iso
(controller.py lines 187-221): step 1, then the fetch step, then the
customize step. -/
def pipeline_body (env : PipelineEnv) (ignition_file : String) (st : St) :
    Except PyErr Unit × St :=
  andThen (step1 env ignition_file st) (fun _ st1 =>
    andThen (download_base_iso env.fetch st1) (fun _ st2 =>
      customize_step env.customize ignition_file st2))

/-- Rendering of str(e) for the top-level error report. -/
def pyErrStr : PyErr → String
  | PyErr.calledProcessError rc _ _ =>
    "Command returned non-zero exit status " ++ toString rc ++ "."
  | PyErr.valueError m => m
  | PyErr.osError m => m
  | PyErr.keyboardInterrupt => ""

/-- Top-level exception handling of create_iso (controller.py lines
225-230): a KeyboardInterrupt is printed and re-raised; any other
exception is shown via view.show_error and re-raised. -/
def report_and_reraise : Except PyErr Unit × St → Except PyErr Unit × St
  | (Except.ok _, st) => (Except.ok (), st)
  | (Except.error PyErr.keyboardInterrupt, st) =>
    (Except.error PyErr.keyboardInterrupt, st)
  | (Except.error e, st) =>
    (Except.error e, { st with events := st.events ++ [Ev.errorShown (pyErrStr e)] })

/-- Embedding of ConsoleController.create_iso (controller.py lines
163-230): collect the configuration, validate (reporting each
violation and returning on failure), show the summary, ask for
confirmation (returning on decline), then run the pipeline inside the
ignition-file scope under the top-level exception handler. -/
def create_iso (env : PipelineEnv) (st0 : St) : Except PyErr Unit × St :=
  let st : St := { st0 with config := env.initialConfig }
  let errors := validate st.config
  if errors ≠ [] then
    (Except.ok (), { st with events := st.events ++ errors.map Ev.errorShown })
  else
    let st1 : St := { st with events := st.events ++ [Ev.confirmAsked] }
    if env.confirm = false then (Except.ok (), st1)
    else
      report_and_reraise (create_ignition_file env.ignitionPath (pipeline_body env) st1)

/-- Commands launched, in order, extracted from an event trace. -/
def ranCmds (evs : List Ev) : List (List String) :=
  evs.filterMap (fun ev => match ev with | Ev.ran c => some c | _ => none)

/-- Subtrace of removal and launch events, keeping their order. -/
def removedRan (evs : List Ev) : List Ev :=
  evs.filter (fun ev =>
    match ev with | Ev.ran _ => true | Ev.removed _ => true | _ => false)


/-- C4: with the output path non-empty, validate returns exactly one
message per empty field among install target, SSH key, hostname and
username -- so its length is the number of missing fields, each
field-specific message appears exactly when that field is empty, and
is_valid holds iff none of the four required fields is empty. -/
theorem validate_counts_missing_fields (c : ISOCreationConfig)
    (hout : c.output_iso ≠ "") :
    (validate c).length = missing_required_count c
    ∧ (("Install disk must be specified" ∈ validate c) ↔ c.install_disk = "")
    ∧ (("SSH key must be specified" ∈ validate c) ↔ c.ssh_key = "")
    ∧ (("Hostname must be specified" ∈ validate c) ↔ c.hostname = "")
    ∧ (("Username must be specified" ∈ validate c) ↔ c.username = "")
    ∧ (is_valid c = true ↔
        (c.install_disk ≠ "" ∧ c.ssh_key ≠ "" ∧ c.hostname ≠ "" ∧ c.username ≠ "")) := by
  by_cases h1 : c.install_disk = "" <;>
    by_cases h2 : c.ssh_key = "" <;>
      by_cases h3 : c.hostname = "" <;>
        by_cases h4 : c.username = "" <;>
          simp [validate, is_valid, missing_required_count, h1, h2, h3, h4, hout]

/-- Witness for the validation-completeness theorem at a concrete
configuration missing exactly the SSH key and the username. -/
theorem validate_counts_missing_fields_witness :
    let c : ISOCreationConfig :=
      { install_disk := "/dev/sda", output_iso := "server.iso",
        ignition_file := "/tmp/server.ign", base_iso := "/cache/fedora-coreos.iso",
        ssh_key := "", hostname := "k3s", username := "",
        cache_dir := "/cache", temp_dir := "/tmp" }
    (validate c).length = missing_required_count c
    ∧ (("Install disk must be specified" ∈ validate c) ↔ c.install_disk = "")
    ∧ (("SSH key must be specified" ∈ validate c) ↔ c.ssh_key = "")
    ∧ (("Hostname must be specified" ∈ validate c) ↔ c.hostname = "")
    ∧ (("Username must be specified" ∈ validate c) ↔ c.username = "")
    ∧ (is_valid c = true ↔
        (c.install_disk ≠ "" ∧ c.ssh_key ≠ "" ∧ c.hostname ≠ "" ∧ c.username ≠ "")) :=
  validate_counts_missing_fields _ (by decide)

theorem mem_fsRemove (q p : String) (fs : List String) :
    q ∈ fsRemove p fs ↔ (q ∈ fs ∧ q ≠ p) := by
  induction fs with
  | nil => simp [fsRemove]
  | cons a rest ih =>
    by_cases h : a = p
    · subst h
      simp only [fsRemove, eq_self_iff_true, if_true, ih, List.mem_cons]
      constructor
      · exact fun hq => ⟨Or.inr hq.1, hq.2⟩
      · rintro ⟨hq | hq, hne⟩
        · exact absurd hq hne
        · exact ⟨hq, hne⟩
    · simp only [fsRemove, if_neg h, List.mem_cons, ih]
      constructor
      · rintro (hq | ⟨hq, hne⟩)
        · exact ⟨Or.inl hq, fun hqp => h (hq.symm.trans hqp)⟩
        · exact ⟨Or.inr hq, hne⟩
      · rintro ⟨hq | hq, hne⟩
        · exact Or.inl hq
        · exact Or.inr ⟨hq, hne⟩

theorem fsRemove_not_mem (p : String) (fs : List String) :
    p ∉ fsRemove p fs := by
  simp [mem_fsRemove]

theorem fsRemove_eq_self (p : String) (fs : List String) (hp : p ∉ fs) :
    fsRemove p fs = fs := by
  induction fs with
  | nil => rfl
  | cons a rest ih =>
    simp only [List.mem_cons, not_or] at hp
    simp only [fsRemove]
    rw [if_neg (fun h => hp.1 h.symm), ih hp.2]

/-- C2 counterexample: a concrete _temp_file call whose body returns
normally but whose scope-exit removal fails; the removal error is
raised to the caller and replaces the body outcome, so removal
failures are not swallowed. -/
theorem temp_file_remove_failure_masks :
    (temp_file (α := Nat)
        { mkstempResult := Except.ok "/tmp/server-a.ign"
          writeOk := true
          removeOk := false }
        "" (fun _ st => (Except.ok 7, st)) (stOn [])).1
      = Except.error (PyErr.osError "remove failed") := by
  rfl

/-- C2 amended: when the file is absent at scope exit, removal is
skipped and the body outcome is returned unchanged; when the removal
of a still-existing file succeeds, the body outcome is returned
unchanged; but when that removal fails, the removal error propagates
to the caller and replaces the body outcome. -/
theorem temp_file_exit_outcomes {α : Type} (rOk : Bool) (path content : String)
    (w : Bool) (body : String → St → Except PyErr α × St) (st st2 : St)
    (res : Except PyErr α)
    (hw : ¬ (content ≠ "" ∧ w = false))
    (hbody : body path { st with fs := fsAdd path st.fs } = (res, st2)) :
    (path ∉ st2.fs →
      temp_file { mkstempResult := Except.ok path, writeOk := w, removeOk := rOk }
        content body st = (res, st2))
    ∧ (path ∈ st2.fs → rOk = true →
      temp_file { mkstempResult := Except.ok path, writeOk := w, removeOk := rOk }
        content body st
        = (res, { st2 with events := st2.events ++ [Ev.removed path]
                           fs := fsRemove path st2.fs }))
    ∧ (path ∈ st2.fs → rOk = false →
      (temp_file { mkstempResult := Except.ok path, writeOk := w, removeOk := rOk }
        content body st).1 = Except.error (PyErr.osError "remove failed")) := by
  refine ⟨fun habs => ?_, fun hmem hr => ?_, fun hmem hr => ?_⟩
  · simp only [temp_file, temp_file_exit, if_neg hw, hbody]
    simp [habs]
  · subst hr
    simp only [temp_file, temp_file_exit, if_neg hw, hbody]
    simp [hmem]
  · subst hr
    simp only [temp_file, temp_file_exit, if_neg hw, hbody]
    simp [hmem]

/-- Witness for the amended temp-file exit theorem: a concrete call
whose body leaves the file in place and whose removal succeeds, so the
body outcome is preserved and the file is gone. -/
theorem temp_file_exit_outcomes_witness :
    temp_file { mkstempResult := Except.ok "/tmp/t.bu", writeOk := true, removeOk := true }
        "" (fun _ st => (Except.ok 5, st)) (stOn [])
      = (Except.ok 5,
         { stOn ["/tmp/t.bu"] with
             events := (stOn ["/tmp/t.bu"]).events ++ [Ev.removed "/tmp/t.bu"]
             fs := fsRemove "/tmp/t.bu" (stOn ["/tmp/t.bu"]).fs }) :=
  (temp_file_exit_outcomes (α := Nat) true "/tmp/t.bu" "" true
    (fun _ st => (Except.ok 5, st)) (stOn []) (stOn ["/tmp/t.bu"])
    (Except.ok 5) (by decide) (by rfl)).2.1 (by decide) rfl

/-- C3 counterexample: a concrete _temp_file call in which writing the
initial content fails; the failure propagates, but a cleanup removal
of the mkstemp-created file is attempted (and here succeeds), so a
removal attempt is performed before propagating. -/
theorem temp_file_write_failure_cleanup_attempted :
    (temp_file (α := Nat)
        { mkstempResult := Except.ok "/tmp/server-a.bu"
          writeOk := false
          removeOk := true }
        "content" (fun _ st => (Except.ok 7, st)) (stOn []))
      = (Except.error (PyErr.osError "write failed"),
         { fs := [], config := cfg0, events := [Ev.removed "/tmp/server-a.bu"] }) := by
  rfl

/-- C3 amended: if creating the file itself fails (mkstemp raises),
the failure propagates to the caller with no state change and no
removal attempt; but if populating the file with its initial content
fails, the failure propagates without running the body while the
finally block still attempts cleanup and removes the already-created
file. -/
theorem temp_file_creation_failure_outcomes {α : Type} (e : PyErr) (w rOk : Bool)
    (path content : String) (hcontent : content ≠ "")
    (body : String → St → Except PyErr α × St) (st : St) :
    (temp_file { mkstempResult := Except.error e, writeOk := w, removeOk := rOk }
        content body st = (Except.error e, st))
    ∧ (path ∉ st.fs →
      temp_file { mkstempResult := Except.ok path, writeOk := false, removeOk := true }
        content body st
        = (Except.error (PyErr.osError "write failed"),
           { st with events := st.events ++ [Ev.removed path] })) := by
  constructor
  · rfl
  · intro hp
    have hfil : fsRemove path st.fs = st.fs := fsRemove_eq_self path st.fs hp
    simp [temp_file, temp_file_exit, fsAdd, fsRemove, hcontent, hfil]

/-- Witness for the creation-failure theorem at concrete inputs. -/
theorem temp_file_creation_failure_outcomes_witness :
    (temp_file (α := Nat)
        { mkstempResult := Except.error (PyErr.osError "mkstemp failed")
          writeOk := true
          removeOk := true }
        "c" (fun _ st => (Except.ok 3, st)) (stOn [])
      = (Except.error (PyErr.osError "mkstemp failed"), stOn []))
    ∧ (temp_file (α := Nat)
        { mkstempResult := Except.ok "/tmp/w.bu", writeOk := false, removeOk := true }
        "c" (fun _ st => (Except.ok 3, st)) (stOn [])
        = (Except.error (PyErr.osError "write failed"),
           { stOn [] with events := (stOn []).events ++ [Ev.removed "/tmp/w.bu"] })) :=
  ⟨(temp_file_creation_failure_outcomes (α := Nat) (PyErr.osError "mkstemp failed")
      true true "/tmp/w.bu" "c" (by decide) (fun _ st => (Except.ok 3, st)) (stOn [])).1,
   (temp_file_creation_failure_outcomes (α := Nat) (PyErr.osError "mkstemp failed")
      true true "/tmp/w.bu" "c" (by decide) (fun _ st => (Except.ok 3, st)) (stOn [])).2
     (by decide)⟩

/-- C5: template rendering literally substitutes each bound
placeholder with its value and leaves an unbound placeholder such as
the FOO one verbatim, on the concrete inputs of the specification. -/
theorem process_template_vars_spec :
    process_template_vars "a {{SSH_KEY}} b {{HOSTNAME}} c {{USERNAME}}" "K" "H" "U"
      = "a K b H c U"
    ∧ process_template_vars "x {{FOO}} y {{USERNAME}} z" "K" "H" "U"
      = "x {{FOO}} y U z" := by
  constructor <;> rfl

theorem run_command_fs (o : CmdOutcome) (cmd : List String) (st : St) :
    (run_command o cmd st).2.fs = st.fs := by
  cases o <;> rfl

theorem run_command_config (o : CmdOutcome) (cmd : List String) (st : St) :
    (run_command o cmd st).2.config = st.config := by
  cases o <;> rfl

theorem temp_file_exit_excludes {α : Type} (path : String)
    (pr : Except PyErr α × St) :
    path ∉ (temp_file_exit true path pr).2.fs := by
  obtain ⟨res, st⟩ := pr
  by_cases h : path ∈ st.fs
  · simp [temp_file_exit, h, fsRemove_not_mem]
  · simp [temp_file_exit, h]

theorem temp_file_exit_preserves {α : Type} (q path : String) (rOk : Bool)
    (pr : Except PyErr α × St) (hq : q ∉ pr.2.fs) :
    q ∉ (temp_file_exit rOk path pr).2.fs := by
  obtain ⟨res, st⟩ := pr
  by_cases h : path ∈ st.fs
  · cases rOk <;> simp_all [temp_file_exit, mem_fsRemove]
  · simpa [temp_file_exit, h] using hq

theorem temp_file_exit_config {α : Type} (path : String) (rOk : Bool)
    (pr : Except PyErr α × St) :
    (temp_file_exit rOk path pr).2.config = pr.2.config := by
  obtain ⟨res, st⟩ := pr
  by_cases h : path ∈ st.fs <;> cases rOk <;> simp [temp_file_exit, h]

theorem temp_file_true_excludes {α : Type} (path content : String) (w : Bool)
    (body : String → St → Except PyErr α × St) (st : St) :
    path ∉ (temp_file { mkstempResult := Except.ok path, writeOk := w, removeOk := true }
      content body st).2.fs := by
  exact temp_file_exit_excludes path _

theorem temp_file_ok_eq {α : Type} (path content : String) (w rOk : Bool)
    (body : String → St → Except PyErr α × St) (st : St) :
    temp_file { mkstempResult := Except.ok path, writeOk := w, removeOk := rOk }
      content body st
      = temp_file_exit rOk path
          (if content ≠ "" ∧ w = false then
            (Except.error (PyErr.osError "write failed"),
              { st with fs := fsAdd path st.fs })
          else body path { st with fs := fsAdd path st.fs }) := rfl

theorem temp_file_true_preserves {α : Type} (q path content : String) (w : Bool)
    (body : String → St → Except PyErr α × St) (st : St) (hq : q ∉ st.fs)
    (hbody : q ≠ path → q ∉ (body path { st with fs := fsAdd path st.fs }).2.fs) :
    q ∉ (temp_file { mkstempResult := Except.ok path, writeOk := w, removeOk := true }
      content body st).2.fs := by
  rw [temp_file_ok_eq]
  by_cases hqp : q = path
  · subst hqp
    exact temp_file_exit_excludes q _
  · apply temp_file_exit_preserves
    by_cases hw : content ≠ "" ∧ w = false
    · rw [if_pos hw]
      simpa [fsAdd, hqp] using hq
    · rw [if_neg hw]
      exact hbody hqp

theorem temp_file_config {α : Type} (path content : String) (w rOk : Bool)
    (body : String → St → Except PyErr α × St) (st : St)
    (hbody : (body path { st with fs := fsAdd path st.fs }).2.config
      = st.config) :
    (temp_file { mkstempResult := Except.ok path, writeOk := w, removeOk := rOk }
      content body st).2.config = st.config := by
  rw [temp_file_ok_eq, temp_file_exit_config]
  by_cases hw : content ≠ "" ∧ w = false
  · rw [if_pos hw]
  · rw [if_neg hw]
    exact hbody

theorem andThen_pres {A B : Type} (P : St → Prop) (m : Except PyErr A × St)
    (f : A → St → Except PyErr B × St) (hm : P m.2)
    (hf : ∀ v s, P s → P (f v s).2) : P (andThen m f).2 := by
  obtain ⟨res, s⟩ := m
  cases res with
  | error e => exact hm
  | ok v => exact hf v s hm

theorem step1_inner_config (env : PipelineEnv) (ign tb : String) (s : St) :
    (step1_inner env ign tb s).2.config = s.config := by
  unfold step1_inner
  refine andThen_pres (fun x => x.config = s.config) _ _
    (run_command_config _ _ _) ?_
  intro v s1 h1
  refine andThen_pres (fun x => x.config = s.config) _ _ ?_ ?_
  · simp only [run_command_config]
    exact h1
  · intro v2 s2 h2
    exact h2

theorem step1_inner_fs (env : PipelineEnv) (ign tb : String) (s : St) :
    (step1_inner env ign tb s).2.fs = s.fs := by
  unfold step1_inner
  refine andThen_pres (fun x => x.fs = s.fs) _ _ (run_command_fs _ _ _) ?_
  intro v s1 h1
  refine andThen_pres (fun x => x.fs = s.fs) _ _ ?_ ?_
  · simp only [run_command_fs]
    exact h1
  · intro v2 s2 h2
    exact h2

theorem step1_config (env : PipelineEnv) (ign : String) (st : St) :
    (step1 env ign st).2.config = st.config := by
  unfold step1 process_butane_template
  by_cases ht : env.templateExists = false
  · rw [if_pos ht]
  · rw [if_neg ht]
    exact temp_file_config _ _ _ _ _ _ (step1_inner_config env ign env.butanePath _)

theorem step1_not_mem (env : PipelineEnv) (ign q : String) (st : St)
    (hq : q ∉ st.fs) :
    q ∉ (step1 env ign st).2.fs := by
  unfold step1 process_butane_template
  by_cases ht : env.templateExists = false
  · rw [if_pos ht]
    exact hq
  · rw [if_neg ht]
    apply temp_file_true_preserves _ _ _ _ _ _ hq
    intro hqp
    rw [step1_inner_fs]
    simp [fsAdd, hqp, hq]

theorem download_config (o : CmdOutcome) (st : St) :
    (download_base_iso o st).2.config = st.config := by
  unfold download_base_iso
  by_cases hb : st.config.base_iso ∈ st.fs
  · rw [if_pos hb]
  · rw [if_neg hb]
    refine andThen_pres (fun x => x.config = st.config) _ _
      (run_command_config _ _ _) ?_
    intro r s1 h1
    dsimp only
    split_ifs <;> simp [h1]

theorem download_not_mem (o : CmdOutcome) (q : String) (st : St)
    (hq : q ∉ st.fs) (hbase : st.config.base_iso ≠ q) :
    q ∉ (download_base_iso o st).2.fs := by
  unfold download_base_iso
  by_cases hb : st.config.base_iso ∈ st.fs
  · rw [if_pos hb]
    exact hq
  · rw [if_neg hb]
    have hbq : ¬ q = st.config.base_iso := fun h => hbase h.symm
    refine (andThen_pres (fun x => q ∉ x.fs ∧ x.config = st.config) _ _
      ⟨?_, run_command_config _ _ _⟩ ?_).1
    · simp only [run_command_fs]
      exact hq
    · intro r s1 hp
      obtain ⟨hm, hcfg⟩ := hp
      dsimp only
      split_ifs with h2 h3 h4 <;>
        refine ⟨?_, by simp [hcfg]⟩ <;>
          simp_all [fsAdd, mem_fsRemove, List.mem_cons]

theorem remove_existing_output_config (st : St) :
    (remove_existing_output st).config = st.config := by
  unfold remove_existing_output
  split_ifs <;> rfl

theorem remove_existing_output_not_mem (q : String) (st : St) (hq : q ∉ st.fs) :
    q ∉ (remove_existing_output st).fs := by
  unfold remove_existing_output
  split_ifs with h
  · simp [mem_fsRemove, hq]
  · exact hq

theorem customize_iso_config (o : CmdOutcome) (st : St) :
    (customize_iso o st).2.config = st.config := by
  unfold customize_iso
  by_cases h1 : (st.config.ignition_file = "" ∨ st.config.output_iso = "" ∨
      st.config.install_disk = "" ∨ st.config.base_iso = "")
  · rw [if_pos h1]
  · rw [if_neg h1]
    dsimp only
    by_cases h2 : ((remove_existing_output st).config.ignition_file = "" ∨
        (remove_existing_output st).config.output_iso = "")
    · rw [if_pos h2]
      exact remove_existing_output_config st
    · rw [if_neg h2]
      refine andThen_pres (fun x => x.config = st.config) _ _ ?_ ?_
      · simp only [run_command_config]
        exact remove_existing_output_config st
      · intro v s2 h
        exact h

theorem customize_iso_not_mem (o : CmdOutcome) (q : String) (st : St)
    (hq : q ∉ st.fs) (hout : st.config.output_iso ≠ q) :
    q ∉ (customize_iso o st).2.fs := by
  unfold customize_iso
  by_cases h1 : (st.config.ignition_file = "" ∨ st.config.output_iso = "" ∨
      st.config.install_disk = "" ∨ st.config.base_iso = "")
  · rw [if_pos h1]
    exact hq
  · rw [if_neg h1]
    dsimp only
    have hq1 : q ∉ (remove_existing_output st).fs :=
      remove_existing_output_not_mem q st hq
    by_cases h2 : ((remove_existing_output st).config.ignition_file = "" ∨
        (remove_existing_output st).config.output_iso = "")
    · rw [if_pos h2]
      exact hq1
    · rw [if_neg h2]
      have hoq : ¬ q = st.config.output_iso := fun h => hout h.symm
      refine (andThen_pres
        (fun x => q ∉ x.fs ∧ x.config.output_iso = st.config.output_iso) _ _
        ⟨?_, ?_⟩ ?_).1
      · simp only [run_command_fs]
        exact hq1
      · simp only [run_command_config, remove_existing_output_config]
      · intro v s2 hp
        obtain ⟨hm, hcfg⟩ := hp
        refine ⟨?_, hcfg⟩
        simp [fsAdd, hcfg, hm, hoq]

theorem customize_step_config (o : CmdOutcome) (ign : String) (st : St) :
    (customize_step o ign st).2.config = st.config := by
  unfold customize_step
  dsimp only
  rw [customize_iso_config]

theorem customize_step_not_mem (o : CmdOutcome) (ign q : String) (st : St)
    (hq : q ∉ st.fs) (hout : st.config.output_iso ≠ q) :
    q ∉ (customize_step o ign st).2.fs := by
  unfold customize_step
  exact customize_iso_not_mem o q _ hq hout

theorem pipeline_body_config (env : PipelineEnv) (ign : String) (st : St) :
    (pipeline_body env ign st).2.config = st.config := by
  unfold pipeline_body
  refine andThen_pres (fun x => x.config = st.config) _ _ ?_ ?_
  · exact step1_config env ign st
  · intro v s1 h1
    refine andThen_pres (fun x => x.config = st.config) _ _ ?_ ?_
    · simp only [download_config]
      exact h1
    · intro v2 s2 h2
      simp only [customize_step_config]
      exact h2

theorem pipeline_body_not_mem (env : PipelineEnv) (ign q : String) (st : St)
    (hq : q ∉ st.fs) (hbase : st.config.base_iso ≠ q)
    (hout : st.config.output_iso ≠ q) :
    q ∉ (pipeline_body env ign st).2.fs := by
  unfold pipeline_body
  refine (andThen_pres (fun x => q ∉ x.fs ∧ x.config = st.config) _ _
    ⟨step1_not_mem env ign q st hq, step1_config env ign st⟩ ?_).1
  intro v s1 hp
  obtain ⟨hm1, hc1⟩ := hp
  refine (andThen_pres (fun x => q ∉ x.fs ∧ x.config = st.config) _ _
    ⟨?_, ?_⟩ ?_).imp id id
  · exact download_not_mem env.fetch q s1 hm1 (by rw [hc1]; exact hbase)
  · rw [download_config]
    exact hc1
  · intro v2 s2 hp2
    obtain ⟨hm2, hc2⟩ := hp2
    refine ⟨?_, ?_⟩
    · exact customize_step_not_mem env.customize ign q s2 hm2
        (by rw [hc2]; exact hout)
    · rw [customize_step_config]
      exact hc2

theorem create_ignition_file_config {α : Type} (ignPath : String)
    (body : String → St → Except PyErr α × St) (st : St)
    (hbody : ∀ p s, (body p s).2.config = s.config) :
    (create_ignition_file ignPath body st).2.config = st.config := by
  unfold create_ignition_file
  apply temp_file_config
  dsimp only
  rw [hbody]

theorem create_ignition_file_excludes {α : Type} (ignPath : String)
    (body : String → St → Except PyErr α × St) (st : St) :
    ignPath ∉ (create_ignition_file ignPath body st).2.fs := by
  unfold create_ignition_file
  exact temp_file_exit_excludes ignPath _

theorem create_ignition_file_not_mem {α : Type} (ignPath q : String)
    (body : String → St → Except PyErr α × St) (st : St) (hq : q ∉ st.fs)
    (hbody : ∀ p s, q ∉ s.fs → q ∉ (body p s).2.fs) :
    q ∉ (create_ignition_file ignPath body st).2.fs := by
  unfold create_ignition_file
  apply temp_file_true_preserves _ _ _ _ _ _ hq
  intro hqp
  dsimp only
  exact hbody _ _ (by simp [fsAdd, hqp, hq])

theorem report_and_reraise_fs (pr : Except PyErr Unit × St) :
    (report_and_reraise pr).2.fs = pr.2.fs := by
  obtain ⟨res, st⟩ := pr
  cases res with
  | ok v => rfl
  | error e => cases e <;> rfl

theorem report_and_reraise_config (pr : Except PyErr Unit × St) :
    (report_and_reraise pr).2.config = pr.2.config := by
  obtain ⟨res, st⟩ := pr
  cases res with
  | ok v => rfl
  | error e => cases e <;> rfl

theorem validate_eq_nil_iff (c : ISOCreationConfig) :
    validate c = [] ↔ (c.install_disk ≠ "" ∧ c.output_iso ≠ "" ∧ c.ssh_key ≠ ""
      ∧ c.hostname ≠ "" ∧ c.username ≠ "") := by
  by_cases h1 : c.install_disk = "" <;>
    by_cases h2 : c.output_iso = "" <;>
      by_cases h3 : c.ssh_key = "" <;>
        by_cases h4 : c.hostname = "" <;>
          by_cases h5 : c.username = "" <;>
            simp [validate, h1, h2, h3, h4, h5]

theorem create_ignition_file_not_mem_at {α : Type} (ignPath q : String)
    (body : String → St → Except PyErr α × St) (st : St) (hq : q ∉ st.fs)
    (hbody : q ≠ ignPath →
      q ∉ (body ignPath
        { st with fs := fsAdd ignPath st.fs
                  config := { st.config with ignition_file := ignPath } }).2.fs) :
    q ∉ (create_ignition_file ignPath body st).2.fs := by
  unfold create_ignition_file
  apply temp_file_true_preserves _ _ _ _ _ _ hq
  intro hqp
  dsimp only
  exact hbody hqp

theorem create_iso_config (env : PipelineEnv) (st : St) :
    (create_iso env st).2.config = env.initialConfig := by
  unfold create_iso
  dsimp only
  by_cases hv : validate env.initialConfig ≠ []
  · rw [if_pos hv]
  · rw [if_neg hv]
    by_cases hc : env.confirm = false
    · rw [if_pos hc]
    · rw [if_neg hc]
      rw [report_and_reraise_config]
      exact create_ignition_file_config _ _ _ (fun p s => pipeline_body_config env p s)

/-- C8: when validation fails, create_iso reports every violation
message in order and does nothing else: the filesystem is untouched,
no removal, no command launch and no confirmation prompt happen, and
the run ends right there. -/
theorem create_iso_validation_failure (env : PipelineEnv) (st : St)
    (hv : validate env.initialConfig ≠ []) :
    create_iso env st
      = (Except.ok (),
         { st with config := env.initialConfig
                   events := st.events ++ (validate env.initialConfig).map Ev.errorShown }) := by
  unfold create_iso
  dsimp only
  rw [if_pos hv]

/-- Witness for the validation-failure theorem at a configuration with
an empty SSH key. -/
theorem create_iso_validation_failure_witness :
    create_iso
        { initialConfig := { cfg0 with ssh_key := "" }
          confirm := true
          templateExists := true
          templateContent := "t"
          butanePath := "/tmp/b.bu"
          ignitionPath := "/tmp/i.ign"
          convert := CmdOutcome.ok "" ""
          validateCmd := CmdOutcome.ok "" ""
          fetch := CmdOutcome.ok "" ""
          customize := CmdOutcome.ok "" "" }
        (stOn [])
      = (Except.ok (),
         { stOn [] with config := { cfg0 with ssh_key := "" }
                        events := (stOn []).events
                          ++ (validate { cfg0 with ssh_key := "" }).map Ev.errorShown }) :=
  create_iso_validation_failure _ _ (by decide)

/-- C7: in the customize step with all four required paths set, a
pre-existing output file is removed (exactly one removal, before the
single command launch) and the customize command is then launched
exactly once; without a pre-existing output file no removal happens
and the command is still launched exactly once. -/
theorem customize_iso_overwrite (o : CmdOutcome) (st : St)
    (h1 : st.config.ignition_file ≠ "") (h2 : st.config.output_iso ≠ "")
    (h3 : st.config.install_disk ≠ "") (h4 : st.config.base_iso ≠ "") :
    removedRan (customize_iso o st).2.events
      = removedRan st.events ++
        (if st.config.output_iso ∈ st.fs then
          [Ev.removed st.config.output_iso, Ev.ran (customize_cmd st.config)]
        else [Ev.ran (customize_cmd st.config)]) := by
  unfold customize_iso remove_existing_output andThen run_command
  rw [if_neg (by simp [h1, h2, h3, h4])]
  dsimp only
  by_cases hmem : st.config.output_iso ∈ st.fs
  · rw [if_pos hmem, if_pos hmem]
    rw [if_neg (by simp [h1, h2])]
    cases o <;> simp [removedRan]
  · rw [if_neg hmem, if_neg hmem]
    rw [if_neg (by simp [h1, h2])]
    cases o <;> simp [removedRan]

/-- Witness for the overwrite theorem with a pre-existing output file
and a succeeding command. -/
theorem customize_iso_overwrite_witness :
    removedRan (customize_iso (CmdOutcome.ok "" "") (stOn ["server.iso"])).2.events
      = removedRan (stOn ["server.iso"]).events ++
        (if (stOn ["server.iso"]).config.output_iso ∈ (stOn ["server.iso"]).fs then
          [Ev.removed (stOn ["server.iso"]).config.output_iso,
           Ev.ran (customize_cmd (stOn ["server.iso"]).config)]
        else [Ev.ran (customize_cmd (stOn ["server.iso"]).config)]) :=
  customize_iso_overwrite _ _ (by decide) (by decide) (by decide) (by decide)

/-- C1: for every run that passes validation and confirmation -- over
all outcomes of the four commands, including failures and
interruptions at each step -- neither the scoped rendered-template
file nor the scoped ignition file exists when the run ends: each
scope's exit handler removes its file whenever it still exists. -/
theorem create_iso_scope_cleanup (env : PipelineEnv) (st : St)
    (hv : validate env.initialConfig = []) (hc : env.confirm = true)
    (hb : env.butanePath ∉ st.fs)
    (hbb : env.initialConfig.base_iso ≠ env.butanePath)
    (hob : env.initialConfig.output_iso ≠ env.butanePath) :
    env.butanePath ∉ (create_iso env st).2.fs
    ∧ env.ignitionPath ∉ (create_iso env st).2.fs := by
  unfold create_iso
  dsimp only
  rw [if_neg (by simp [hv]), if_neg (by simp [hc])]
  constructor
  · rw [report_and_reraise_fs]
    apply create_ignition_file_not_mem_at _ _ _ _ ?_ ?_
    · exact hb
    · intro hqp
      apply pipeline_body_not_mem
      · simp [fsAdd, hqp, hb]
      · exact hbb
      · exact hob
  · rw [report_and_reraise_fs]
    exact create_ignition_file_excludes _ _ _

/-- Witness for the scope-cleanup theorem: a concrete run in which all
four commands succeed. -/
theorem create_iso_scope_cleanup_witness :
    "/tmp/b.bu" ∉ (create_iso
        { initialConfig := cfg0
          confirm := true
          templateExists := true
          templateContent := "t {{SSH_KEY}}"
          butanePath := "/tmp/b.bu"
          ignitionPath := "/tmp/i.ign"
          convert := CmdOutcome.ok "" ""
          validateCmd := CmdOutcome.ok "" ""
          fetch := CmdOutcome.ok "d.iso" ""
          customize := CmdOutcome.ok "" "" }
        (stOn [])).2.fs
    ∧ "/tmp/i.ign" ∉ (create_iso
        { initialConfig := cfg0
          confirm := true
          templateExists := true
          templateContent := "t {{SSH_KEY}}"
          butanePath := "/tmp/b.bu"
          ignitionPath := "/tmp/i.ign"
          convert := CmdOutcome.ok "" ""
          validateCmd := CmdOutcome.ok "" ""
          fetch := CmdOutcome.ok "d.iso" ""
          customize := CmdOutcome.ok "" "" }
        (stOn [])).2.fs :=
  create_iso_scope_cleanup _ _ (by decide) (by decide) (by decide) (by decide) (by decide)

/-- C6: a command that exits non-zero yields a structured
CalledProcessError carrying the exit code and both captured streams
after exactly one launch, and when the convert command fails this way
the run aborts with that error: the convert command is the only
command ever launched in the run, so nothing is retried and no fetch
or customize command is invoked. -/
theorem run_command_failure_aborts (env : PipelineEnv) (st : St) (rc : Nat)
    (o e : String)
    (hv : validate env.initialConfig = []) (hc : env.confirm = true)
    (ht : env.templateExists = true)
    (hib : env.ignitionPath ≠ env.butanePath)
    (hconv : env.convert = CmdOutcome.fail rc o e) :
    (∀ cmd : List String, ∀ s : St,
      (run_command (CmdOutcome.fail rc o e) cmd s).1
          = Except.error (PyErr.calledProcessError rc o e)
      ∧ ranCmds (run_command (CmdOutcome.fail rc o e) cmd s).2.events
          = ranCmds s.events ++ [cmd])
    ∧ (create_iso env st).1 = Except.error (PyErr.calledProcessError rc o e)
    ∧ ranCmds (create_iso env st).2.events
        = ranCmds st.events ++ [convert_cmd env.butanePath env.ignitionPath] := by
  refine ⟨fun cmd s => ⟨rfl, ?_⟩, ?_, ?_⟩
  · simp [run_command, ranCmds]
  · simp [create_iso, report_and_reraise, create_ignition_file, temp_file,
      temp_file_exit, pipeline_body, step1, process_butane_template, step1_inner,
      andThen, run_command, fsAdd, hv, hc, ht, hib, hconv, mem_fsRemove]
  · simp [create_iso, report_and_reraise, create_ignition_file, temp_file,
      temp_file_exit, pipeline_body, step1, process_butane_template, step1_inner,
      andThen, run_command, fsAdd, hv, hc, ht, hib, hconv, mem_fsRemove, ranCmds]

/-- Witness for the command-failure theorem: convert exits 1 with the
bad-syntax message on stderr. -/
theorem run_command_failure_aborts_witness :
    ((∀ cmd : List String, ∀ s : St,
      (run_command (CmdOutcome.fail 1 "" "bad syntax") cmd s).1
          = Except.error (PyErr.calledProcessError 1 "" "bad syntax")
      ∧ ranCmds (run_command (CmdOutcome.fail 1 "" "bad syntax") cmd s).2.events
          = ranCmds s.events ++ [cmd])
    ∧ (create_iso
        { initialConfig := cfg0
          confirm := true
          templateExists := true
          templateContent := "t {{SSH_KEY}}"
          butanePath := "/tmp/b.bu"
          ignitionPath := "/tmp/i.ign"
          convert := CmdOutcome.fail 1 "" "bad syntax"
          validateCmd := CmdOutcome.ok "" ""
          fetch := CmdOutcome.ok "" ""
          customize := CmdOutcome.ok "" "" }
        (stOn [])).1 = Except.error (PyErr.calledProcessError 1 "" "bad syntax")
    ∧ ranCmds (create_iso
        { initialConfig := cfg0
          confirm := true
          templateExists := true
          templateContent := "t {{SSH_KEY}}"
          butanePath := "/tmp/b.bu"
          ignitionPath := "/tmp/i.ign"
          convert := CmdOutcome.fail 1 "" "bad syntax"
          validateCmd := CmdOutcome.ok "" ""
          fetch := CmdOutcome.ok "" ""
          customize := CmdOutcome.ok "" "" }
        (stOn [])).2.events
        = ranCmds (stOn []).events ++ [convert_cmd "/tmp/b.bu" "/tmp/i.ign"]) :=
  run_command_failure_aborts _ _ 1 "" "bad syntax"
    (by decide) (by decide) (by decide) (by decide) (by rfl)

/-- C9: the configuration always leaves a run exactly as it was
collected -- for every environment and starting state the final
configuration equals the collected one, on success, failure and
interruption alike, so the ignition-scope override is undone and no
other field changes -- and while the scope is open the overriding
scoped path is what the customize command actually receives as its
dest-ignition argument. -/
theorem create_iso_ignition_scope_restores (env : PipelineEnv) (st : St)
    (a b d f co ce : String)
    (hv : validate env.initialConfig = []) (hc : env.confirm = true)
    (ht : env.templateExists = true)
    (hib : env.ignitionPath ≠ env.butanePath)
    (hin : env.ignitionPath ≠ "")
    (hconv : env.convert = CmdOutcome.ok a b)
    (hvalc : env.validateCmd = CmdOutcome.ok d f)
    (hbase : env.initialConfig.base_iso ∈ st.fs)
    (hbne : env.initialConfig.base_iso ≠ "")
    (hbb : env.initialConfig.base_iso ≠ env.butanePath)
    (hout : env.initialConfig.output_iso ∉ st.fs)
    (hob : env.initialConfig.output_iso ≠ env.butanePath)
    (hoi : env.initialConfig.output_iso ≠ env.ignitionPath)
    (hcust : env.customize = CmdOutcome.ok co ce) :
    (∀ env2 : PipelineEnv, ∀ st2 : St,
      (create_iso env2 st2).2.config = env2.initialConfig)
    ∧ Ev.ran (customize_cmd { env.initialConfig with ignition_file := env.ignitionPath })
        ∈ (create_iso env st).2.events := by
  obtain ⟨hd1, hd2, hd3, hd4, hd5⟩ := (validate_eq_nil_iff env.initialConfig).mp hv
  refine ⟨fun env2 st2 => create_iso_config env2 st2, ?_⟩
  simp [create_iso, report_and_reraise, create_ignition_file, temp_file,
    temp_file_exit, pipeline_body, step1, process_butane_template, step1_inner,
    andThen, run_command, download_base_iso, customize_step, customize_iso,
    remove_existing_output, customize_cmd, fsAdd, hv, hc, ht, hib, hin, hconv,
    hvalc, hcust, mem_fsRemove, hbase, hbne, hbb, hout, hob, hoi,
    hd1, hd2, hd3, hd4, hd5]

/-- Witness for the scope-restoration theorem: a fully succeeding run
with the base image cached and no pre-existing output file. -/
theorem create_iso_ignition_scope_restores_witness :
    ((∀ env2 : PipelineEnv, ∀ st2 : St,
      (create_iso env2 st2).2.config = env2.initialConfig)
    ∧ Ev.ran (customize_cmd { cfg0 with ignition_file := "/tmp/i.ign" })
        ∈ (create_iso
            { initialConfig := cfg0
              confirm := true
              templateExists := true
              templateContent := "t {{SSH_KEY}}"
              butanePath := "/tmp/b.bu"
              ignitionPath := "/tmp/i.ign"
              convert := CmdOutcome.ok "" ""
              validateCmd := CmdOutcome.ok "" ""
              fetch := CmdOutcome.ok "" ""
              customize := CmdOutcome.ok "" "" }
            (stOn ["/cache/fedora-coreos.iso"])).2.events) :=
  create_iso_ignition_scope_restores _ _ "" "" "" "" "" ""
    (by decide) (by decide) (by decide) (by decide) (by decide) (by rfl) (by rfl)
    (by decide) (by decide) (by decide) (by decide) (by decide) (by decide) (by rfl)

/-- C10: when the output image exists before the customize step and
the customize command then fails, the run ends with the command error
and no output image exists at the output path: the pre-existing file
was removed before the single launch of the customize command (the
ordered removal and launch subtrace shows removal first) and nothing
restores it on the error path. -/
theorem create_iso_failed_customize_no_output (env : PipelineEnv) (st : St)
    (rc : Nat) (o e a b d f : String)
    (hv : validate env.initialConfig = []) (hc : env.confirm = true)
    (ht : env.templateExists = true)
    (hib : env.ignitionPath ≠ env.butanePath)
    (hin : env.ignitionPath ≠ "")
    (hconv : env.convert = CmdOutcome.ok a b)
    (hvalc : env.validateCmd = CmdOutcome.ok d f)
    (hbase : env.initialConfig.base_iso ∈ st.fs)
    (hbne : env.initialConfig.base_iso ≠ "")
    (hbb : env.initialConfig.base_iso ≠ env.butanePath)
    (hout : env.initialConfig.output_iso ∈ st.fs)
    (hob : env.initialConfig.output_iso ≠ env.butanePath)
    (hio : env.ignitionPath ≠ env.initialConfig.output_iso)
    (hcust : env.customize = CmdOutcome.fail rc o e) :
    (create_iso env st).1 = Except.error (PyErr.calledProcessError rc o e)
    ∧ env.initialConfig.output_iso ∉ (create_iso env st).2.fs
    ∧ removedRan (create_iso env st).2.events
        = removedRan st.events ++
          [Ev.ran (convert_cmd env.butanePath env.ignitionPath),
           Ev.ran (validate_cmd_argv env.ignitionPath),
           Ev.removed env.butanePath,
           Ev.removed env.initialConfig.output_iso,
           Ev.ran (customize_cmd { env.initialConfig with ignition_file := env.ignitionPath }),
           Ev.removed env.ignitionPath] := by
  obtain ⟨hd1, hd2, hd3, hd4, hd5⟩ := (validate_eq_nil_iff env.initialConfig).mp hv
  refine ⟨?_, ?_, ?_⟩ <;>
    simp [create_iso, report_and_reraise, create_ignition_file, temp_file,
      temp_file_exit, pipeline_body, step1, process_butane_template, step1_inner,
      andThen, run_command, download_base_iso, customize_step, customize_iso,
      remove_existing_output, customize_cmd, fsAdd, removedRan, hv, hc, ht, hib,
      hin, hconv, hvalc, hcust, mem_fsRemove, hbase, hbne, hbb, hout, hob, hio,
      hd1, hd2, hd3, hd4, hd5]

/-- Witness for the failed-customize theorem: base image cached,
output file pre-existing, customize exits 1. -/
theorem create_iso_failed_customize_no_output_witness :
    ((create_iso
        { initialConfig := cfg0
          confirm := true
          templateExists := true
          templateContent := "t {{SSH_KEY}}"
          butanePath := "/tmp/b.bu"
          ignitionPath := "/tmp/i.ign"
          convert := CmdOutcome.ok "" ""
          validateCmd := CmdOutcome.ok "" ""
          fetch := CmdOutcome.ok "" ""
          customize := CmdOutcome.fail 1 "" "embed failed" }
        (stOn ["/cache/fedora-coreos.iso", "server.iso"])).1
      = Except.error (PyErr.calledProcessError 1 "" "embed failed")
    ∧ cfg0.output_iso ∉ (create_iso
        { initialConfig := cfg0
          confirm := true
          templateExists := true
          templateContent := "t {{SSH_KEY}}"
          butanePath := "/tmp/b.bu"
          ignitionPath := "/tmp/i.ign"
          convert := CmdOutcome.ok "" ""
          validateCmd := CmdOutcome.ok "" ""
          fetch := CmdOutcome.ok "" ""
          customize := CmdOutcome.fail 1 "" "embed failed" }
        (stOn ["/cache/fedora-coreos.iso", "server.iso"])).2.fs
    ∧ removedRan (create_iso
        { initialConfig := cfg0
          confirm := true
          templateExists := true
          templateContent := "t {{SSH_KEY}}"
          butanePath := "/tmp/b.bu"
          ignitionPath := "/tmp/i.ign"
          convert := CmdOutcome.ok "" ""
          validateCmd := CmdOutcome.ok "" ""
          fetch := CmdOutcome.ok "" ""
          customize := CmdOutcome.fail 1 "" "embed failed" }
        (stOn ["/cache/fedora-coreos.iso", "server.iso"])).2.events
        = removedRan (stOn ["/cache/fedora-coreos.iso", "server.iso"]).events ++
          [Ev.ran (convert_cmd "/tmp/b.bu" "/tmp/i.ign"),
           Ev.ran (validate_cmd_argv "/tmp/i.ign"),
           Ev.removed "/tmp/b.bu",
           Ev.removed cfg0.output_iso,
           Ev.ran (customize_cmd { cfg0 with ignition_file := "/tmp/i.ign" }),
           Ev.removed "/tmp/i.ign"]) :=
  create_iso_failed_customize_no_output _ _ 1 "" "embed failed" "" "" "" ""
    (by decide) (by decide) (by decide) (by decide) (by decide) (by rfl) (by rfl)
    (by decide) (by decide) (by decide) (by decide) (by decide) (by decide) (by rfl)

end K3sCoreos
